import Mathlib

/-!
Verification of the HOMEASSISTANT repository core against its specification.

This file gives a shallow embedding, in Lean 4, of the data model and the
operations of the intent/context/decision pipeline and of the protocol layer
(files src/legacy/enthropic/ai_service.py, decision_engine.py,
intent_parser.py, src/enthropic/context_manager.py, src/legacy/protocols/mqtt.py,
src/protocols/http.py, src/legacy/services/gateway-service/protocols/websocket.py,
src/services/gateway-service/protocols/base.py), and proves or refutes the
frozen claims about them.

Modelling conventions:
- Python float arithmetic is modelled exactly over the rationals; every
  constant in the source (0.1, 0.3, 0.9, ...) is a small decimal that the
  code only adds, multiplies, divides and compares, so the rational model
  tracks the source everywhere a claim looks (no claim depends on a
  floating-point tie).
- Python dicts are modelled as insertion-ordered association lists with
  unique keys; dict.get with a default becomes lookupD followed by getD.
- datetime timestamps are wall-clock effects and are left out of the value
  model; where a function reads the current hour (cache keys) the hour
  bucket is passed as an explicit argument.
- Arbitrary Python values (payloads, device states, parameters) are
  modelled by the JSON-like type PyVal.
- Network effects (HTTP requests, the MQTT broker, Redis) are passed as
  explicit arguments describing the outcome the environment produces.
-/

set_option maxRecDepth 8000

namespace HA

/-- JSON-like universe of Python values used for payloads, parameters and
device states. -/
inductive PyVal where
  | str (s : String)
  | int (n : Int)
  | rat (q : ℚ)
  | bool (b : Bool)
  | none
  | list (xs : List PyVal)
  | dict (xs : List (String × PyVal))

mutual

/-- Structural equality test on PyVal, mirroring Python == on these values
(the dict case is order-sensitive here; the rule set never compares dicts,
so no claim depends on the difference). -/
def PyVal.beq : PyVal → PyVal → Bool
  | .str a, .str b => a == b
  | .int a, .int b => a == b
  | .rat a, .rat b => a == b
  | .bool a, .bool b => a == b
  | .none, .none => true
  | .list xs, .list ys => beqList xs ys
  | .dict xs, .dict ys => beqDict xs ys
  | _, _ => false

/-- Elementwise PyVal.beq on lists. -/
def beqList : List PyVal → List PyVal → Bool
  | [], [] => true
  | x :: xs, y :: ys => PyVal.beq x y && beqList xs ys
  | _, _ => false

/-- Elementwise PyVal.beq on string-keyed association lists. -/
def beqDict : List (String × PyVal) → List (String × PyVal) → Bool
  | [], [] => true
  | (k1, v1) :: xs, (k2, v2) :: ys => k1 == k2 && PyVal.beq v1 v2 && beqDict xs ys
  | _, _ => false

end

/-- Python truthiness of a PyVal (None, 0, empty string/list/dict are falsy). -/
def PyVal.truthy : PyVal → Bool
  | .str s => s != ""
  | .int n => n != 0
  | .rat q => q != 0
  | .bool b => b
  | .none => false
  | .list xs => !xs.isEmpty
  | .dict xs => !xs.isEmpty

/-- Lookup in an insertion-ordered association list (Python dict access). -/
def lookupD {α : Type} : List (String × α) → String → Option α
  | [], _ => Option.none
  | (k, v) :: rest, key => if k = key then some v else lookupD rest key

/-- Python dict item assignment: replace the value of an existing key in
place, or append a new key at the end. -/
def setKey {α : Type} : List (String × α) → String → α → List (String × α)
  | [], k, v => [(k, v)]
  | (k0, v0) :: rest, k, v =>
      if k0 = k then (k, v) :: rest else (k0, v0) :: setKey rest k v

/-- Python dict merge via unpacking, as in \x7b**a, **b\x7d: every key of b
overrides or extends a, keeping insertion order. -/
def dictUpdate {α : Type} (base upd : List (String × α)) : List (String × α) :=
  upd.foldl (fun acc kv => setKey acc kv.1 kv.2) base

/-- Whether a fallible computation returned a value rather than raising. -/
def exceptIsOk {ε α : Type} : Except ε α → Bool
  | Except.ok _ => true
  | Except.error _ => false

/-- Entity values extracted by the intent layer: strings, or integers for
the numeric category (ai_service.py keeps them heterogeneous). -/
inductive EntVal where
  | str (s : String)
  | int (n : Int)
deriving DecidableEq, Repr

/-- Intent types supported by the pipeline (ai_service.py, class IntentType). -/
inductive IntentType where
  | control
  | query
  | automation
  | scene
  | routine
  | diagnostic
deriving DecidableEq, Repr, Fintype

/-- String value of each intent type, as the Python enum value. -/
def IntentType.value : IntentType → String
  | .control => "control"
  | .query => "query"
  | .automation => "automation"
  | .scene => "scene"
  | .routine => "routine"
  | .diagnostic => "diagnostic"

/-- Intent (ai_service.py, dataclass Intent). The timestamp field is a
wall-clock effect and is left out of the model. -/
structure Intent where
  type : IntentType
  text : String
  confidence : ℚ
  entities : List (String × List EntVal)

/-- Context (ai_service.py, dataclass Context). The dataclass defaults that
replace None with empty collections in post-init are baked into the field
types; the timestamp is left out of the model. -/
structure Context where
  user_id : Option String := Option.none
  location : Option String := Option.none
  time_of_day : Option String := Option.none
  weather : Option PyVal := Option.none
  device_states : List (String × PyVal) := []
  user_preferences : List (String × PyVal) := []
  recent_actions : List PyVal := []

/-- Alternative entries of a Decision (decision_engine.py builds them as
plain dicts with these five keys). -/
structure Alternative where
  action : String
  target : String
  parameters : List (String × PyVal)
  confidence : ℚ
  reasoning : String

/-- Decision (ai_service.py, dataclass Decision), timestamp left out. -/
structure Decision where
  action : String
  target : String
  parameters : List (String × PyVal)
  confidence : ℚ
  reasoning : String
  alternatives : List Alternative := []

/-- Python truthiness of an optional string (None and the empty string are
falsy). -/
def optStrTruthy : Option String → Bool
  | Option.none => false
  | some s => s != ""

/-- Python f-string rendering of an optional string (None prints as the
four characters None). -/
def optStrPy : Option String → String
  | Option.none => "None"
  | some s => s

namespace DecisionEngine

/-- Value shapes occurring in DecisionRule.condition dicts
(decision_engine.py _initialize_rules and _rule_matches). -/
inductive CondVal where
  | intentType (t : IntentType)
  | strList (vs : List String)
  | entMap (m : List (String × List String))
  | ctxMap (m : List (String × PyVal))

/-- DecisionRule (decision_engine.py, dataclass DecisionRule). -/
structure DecisionRule where
  condition : List (String × CondVal)
  action : String
  target : String
  parameters : List (String × PyVal)
  priority : Int
  confidence : ℚ := 1

/-- DecisionFactor (decision_engine.py, dataclass DecisionFactor). -/
structure DecisionFactor where
  name : String
  weight : ℚ
  value : ℚ

/-- Rule set loaded at startup (decision_engine.py _initialize_rules,
lines 66-130), verbatim.  Note the first two rules and the two scene rules
spell their entity requirement with the flat dotted keys entities.action
and entities.scene. -/
def initializeRules : List DecisionRule :=
  [ { condition := [("intent_type", CondVal.intentType IntentType.control),
                    ("entities.action", CondVal.strList ["allume", "active"])],
      action := "turn_on", target := "living_room_light", parameters := [],
      priority := 1, confidence := 9/10 },
    { condition := [("intent_type", CondVal.intentType IntentType.control),
                    ("entities.action", CondVal.strList ["éteins", "désactive"])],
      action := "turn_off", target := "living_room_light", parameters := [],
      priority := 1, confidence := 9/10 },
    { condition := [("intent_type", CondVal.intentType IntentType.query)],
      action := "query_status", target := "all_devices", parameters := [],
      priority := 2, confidence := 8/10 },
    { condition := [("intent_type", CondVal.intentType IntentType.scene),
                    ("entities.scene", CondVal.strList ["cinéma", "cinema"])],
      action := "activate_scene", target := "living_room",
      parameters := [("scene_name", PyVal.str "cinema")],
      priority := 1, confidence := 85/100 },
    { condition := [("intent_type", CondVal.intentType IntentType.scene),
                    ("entities.scene", CondVal.strList ["lecture", "reading"])],
      action := "activate_scene", target := "living_room",
      parameters := [("scene_name", PyVal.str "reading")],
      priority := 1, confidence := 85/100 },
    { condition := [("intent_type", CondVal.intentType IntentType.automation)],
      action := "create_automation", target := "system", parameters := [],
      priority := 3, confidence := 7/10 },
    { condition := [("intent_type", CondVal.intentType IntentType.diagnostic)],
      action := "diagnose", target := "system", parameters := [],
      priority := 4, confidence := 6/10 } ]

/-- Decision factors loaded at startup (decision_engine.py
_initialize_factors); the weights are re-hardcoded in _calculate_confidence
and this list is otherwise unused. -/
def initializeFactors : List DecisionFactor :=
  [ { name := "intent_confidence", weight := 3/10, value := 0 },
    { name := "context_relevance", weight := 2/10, value := 0 },
    { name := "time_of_day", weight := 15/100, value := 0 },
    { name := "user_preferences", weight := 2/10, value := 0 },
    { name := "energy_efficiency", weight := 1/10, value := 0 },
    { name := "privacy_concerns", weight := 5/100, value := 0 } ]

/-- Attribute read getattr(context, key, None) used by the context branch of
_rule_matches, returning None for unknown keys. -/
def contextAttr (c : Context) (k : String) : PyVal :=
  if k = "user_id" then (c.user_id.map PyVal.str).getD PyVal.none
  else if k = "location" then (c.location.map PyVal.str).getD PyVal.none
  else if k = "time_of_day" then (c.time_of_day.map PyVal.str).getD PyVal.none
  else if k = "weather" then c.weather.getD PyVal.none
  else if k = "device_states" then PyVal.dict c.device_states
  else if k = "user_preferences" then PyVal.dict c.user_preferences
  else if k = "recent_actions" then PyVal.list c.recent_actions
  else PyVal.none

/-- Rule matching (decision_engine.py _rule_matches, lines 306-340).  The
three checks read exactly the keys intent_type, entities and context of the
condition dict; any other key, such as the dotted entities.action keys the
built-in rules use, is never consulted. -/
def ruleMatches (rule : DecisionRule) (intent : Intent) (context : Context) : Bool :=
  (match lookupD rule.condition "intent_type" with
   | some (CondVal.intentType t) => decide (intent.type = t)
   | some _ => false
   | Option.none => true) &&
  (match lookupD rule.condition "entities" with
   | some (CondVal.entMap m) =>
       m.all (fun ce =>
         match lookupD intent.entities ce.1 with
         | some entityValues =>
             ce.2.any (fun v => entityValues.any (fun w => decide (w = EntVal.str v)))
         | Option.none => false)
   | some _ => false
   | Option.none => true) &&
  (match lookupD rule.condition "context" with
   | some (CondVal.ctxMap m) =>
       m.all (fun kv => PyVal.beq (contextAttr context kv.1) kv.2)
   | some _ => false
   | Option.none => true)

/-- Rule evaluation (decision_engine.py _evaluate_rules): the rules whose
condition matches, in rule-set order. -/
def evaluateRules (intent : Intent) (context : Context) : List DecisionRule :=
  initializeRules.filter (fun r => ruleMatches r intent context)

/-- Context-richness factor (decision_engine.py _calculate_context_factor). -/
def calculateContextFactor (context : Context) : ℚ :=
  let f0 : ℚ := 1/2
  let f1 := if optStrTruthy context.location then f0 + 1/10 else f0
  let f2 := if (context.weather.getD PyVal.none).truthy then f1 + 1/10 else f1
  let f3 := if !context.device_states.isEmpty then f2 + 2/10 else f2
  let f4 := if !context.user_preferences.isEmpty then f3 + 1/10 else f3
  min 1 f4

/-- Time-of-day factor (decision_engine.py _calculate_time_factor). -/
def calculateTimeFactor (context : Context) : ℚ :=
  if !optStrTruthy context.time_of_day then 1/2
  else match context.time_of_day with
    | some "morning" => 8/10
    | some "afternoon" => 9/10
    | some "evening" => 7/10
    | some "night" => 1/2
    | _ => 1/2

/-- User-preference factor (decision_engine.py _calculate_preference_factor). -/
def calculatePreferenceFactor (context : Context) : ℚ :=
  if context.user_preferences.isEmpty then 1/2
  else
    let autoOpt := (lookupD context.user_preferences "auto_optimization").getD (PyVal.bool false)
    if autoOpt.truthy then 9/10 else 1/2

/-- Energy factor (decision_engine.py _calculate_energy_factor). -/
def calculateEnergyFactor (intent : Intent) : ℚ :=
  if intent.type = IntentType.control then
    match lookupD intent.entities "action" with
    | some actions =>
        if actions.any (fun a => decide (a = EntVal.str "éteins") || decide (a = EntVal.str "désactive"))
        then 9/10 else 1/2
    | Option.none => 1/2
  else 1/2

/-- Privacy factor (decision_engine.py _calculate_privacy_factor). -/
def calculatePrivacyFactor (intent : Intent) : ℚ :=
  if intent.type = IntentType.query then 8/10 else 1/2

/-- Confidence of a selected rule (decision_engine.py _calculate_confidence,
lines 342-386): base confidence times the weighted factor sum, clamped into
the closed interval from 0.1 to 1.0. -/
def calculateConfidence (intent : Intent) (context : Context) (rule : DecisionRule) : ℚ :=
  let intentFactor := intent.confidence * (3/10)
  let contextFactor := calculateContextFactor context * (2/10)
  let timeFactor := calculateTimeFactor context * (15/100)
  let preferenceFactor := calculatePreferenceFactor context * (2/10)
  let energyFactor := calculateEnergyFactor intent * (1/10)
  let privacyFactor := calculatePrivacyFactor intent * (5/100)
  let confidence := rule.confidence *
    (intentFactor + contextFactor + timeFactor + preferenceFactor + energyFactor + privacyFactor)
  max (1/10) (min 1 confidence)

/-- Rendering of a rational with two decimals, standing in for the Python
format spec .2f used in the reasoning string (half-up rounding; the
reasoning values never sit on a representable half so no claim can see the
difference from float half-even). -/
def fmt2 (q : ℚ) : String :=
  let m : Nat := (Rat.floor (q * 100 + 1/2)).toNat
  let frac := m % 100
  toString (m / 100) ++ "." ++ (if frac < 10 then "0" ++ toString frac else toString frac)

/-- Reasoning string (decision_engine.py _generate_reasoning). -/
def generateReasoning (intent : Intent) (context : Context) (rule : DecisionRule) : String :=
  let parts1 := ["Intention détectée: " ++ intent.type.value]
  let parts2 := if optStrTruthy context.time_of_day
    then parts1 ++ ["Moment de la journée: " ++ context.time_of_day.getD ""] else parts1
  let parts3 := if optStrTruthy context.location
    then parts2 ++ ["Localisation: " ++ context.location.getD ""] else parts2
  let parts4 := parts3 ++ ["Règle appliquée: " ++ rule.action ++ " sur " ++ rule.target]
  let parts5 := parts4 ++ ["Confiance: " ++ fmt2 (calculateConfidence intent context rule)]
  String.intercalate ". " parts5

/-- Equality test on condition values, standing in for Python == between
condition dicts inside rule comparison. -/
def condValBeq : CondVal → CondVal → Bool
  | CondVal.intentType a, CondVal.intentType b => decide (a = b)
  | CondVal.strList a, CondVal.strList b => decide (a = b)
  | CondVal.entMap a, CondVal.entMap b => decide (a = b)
  | CondVal.ctxMap a, CondVal.ctxMap b => beqDict a b
  | _, _ => false

/-- Elementwise condValBeq on condition dicts. -/
def condListBeq : List (String × CondVal) → List (String × CondVal) → Bool
  | [], [] => true
  | (k1, v1) :: xs, (k2, v2) :: ys => k1 == k2 && condValBeq v1 v2 && condListBeq xs ys
  | _, _ => false

/-- Dataclass equality on rules (Python ==, all fields). -/
def ruleBeq (a b : DecisionRule) : Bool :=
  condListBeq a.condition b.condition && a.action == b.action && a.target == b.target &&
  beqDict a.parameters b.parameters && decide (a.priority = b.priority) &&
  decide (a.confidence = b.confidence)

/-- Alternatives list (decision_engine.py _generate_alternatives): the
matching rules other than the selected one, confidence discounted by 0.8. -/
def generateAlternatives (matchingRules : List DecisionRule) (selectedRule : DecisionRule) :
    List Alternative :=
  (matchingRules.filter (fun r => !(ruleBeq r selectedRule))).map (fun r =>
    { action := r.action, target := r.target, parameters := r.parameters,
      confidence := r.confidence * (8/10),
      reasoning := "Alternative: " ++ r.action ++ " sur " ++ r.target })

/-- Strict comparison of the Python sort keys (priority, confidence). -/
def ruleKeyGt (a b : DecisionRule) : Bool :=
  decide (b.priority < a.priority) ||
  (decide (a.priority = b.priority) && decide (b.confidence < a.confidence))

/-- Python max over a nonempty list with key (priority, confidence): the
first element whose key no later element strictly exceeds. -/
def pyMaxRule (best : DecisionRule) : List DecisionRule → DecisionRule
  | [] => best
  | r :: rs => pyMaxRule (if ruleKeyGt r best then r else best) rs

/-- Local rule-based decision (decision_engine.py _make_local_decision,
lines 233-285).  The available actions are accepted and ignored, as in the
source. -/
def makeLocalDecision (intent : Intent) (context : Context)
    (_availableActions : List PyVal) : Decision :=
  match evaluateRules intent context with
  | [] =>
      { action := "noop", target := "", parameters := [], confidence := 1/10,
        reasoning := "Aucune règle correspondante trouvée", alternatives := [] }
  | r :: rs =>
      let best := pyMaxRule r rs
      { action := best.action, target := best.target, parameters := best.parameters,
        confidence := calculateConfidence intent context best,
        reasoning := generateReasoning intent context best,
        alternatives := generateAlternatives (r :: rs) best }

/-- Decision cache key (decision_engine.py _get_decision_cache_key,
lines 564-577): intent type, the first 20 characters of the text, the user
id and the time of day, joined into one string. -/
def decisionCacheKey (intent : Intent) (context : Context) : String :=
  "decision:" ++ intent.type.value ++ ":" ++ intent.text.take 20 ++ ":" ++
    optStrPy context.user_id ++ ":" ++ optStrPy context.time_of_day

/-- Shape of a successfully parsed remote-delegate response; each field is
read with decision_data.get and a default in make_decision. -/
structure ApiResponse where
  action : Option String := Option.none
  target : Option String := Option.none
  parameters : Option (List (String × PyVal)) := Option.none
  confidence : Option ℚ := Option.none
  reasoning : Option String := Option.none
  alternatives : Option (List Alternative) := Option.none

/-- Decision built from a remote-delegate response (the try branch of
make_decision, lines 170-183), with the source defaults. -/
def decisionFromApi (d : ApiResponse) : Decision :=
  { action := d.action.getD "noop", target := d.target.getD "",
    parameters := d.parameters.getD [], confidence := d.confidence.getD (1/2),
    reasoning := d.reasoning.getD "No reasoning provided",
    alternatives := d.alternatives.getD [] }

/-- Decision entry point (decision_engine.py make_decision, lines 148-194):
check the cache; otherwise build the decision from the remote delegate when
its call succeeds (api = some response) or from the local rules when it
raises (api = none, any transport failure), and cache the result.  Returns
the decision together with the updated cache. -/
def makeDecision (cache : List (String × Decision)) (api : Option ApiResponse)
    (intent : Intent) (context : Context) (availableActions : List PyVal) :
    Decision × List (String × Decision) :=
  let key := decisionCacheKey intent context
  match lookupD cache key with
  | some d => (d, cache)
  | Option.none =>
      let decision :=
        match api with
        | some data => decisionFromApi data
        | Option.none => makeLocalDecision intent context availableActions
      (decision, (key, decision) :: cache)

end DecisionEngine

namespace AIService

/-- Decision-to-command translation (ai_service.py _decision_to_command,
lines 477-495): a fixed action-to-payload table, empty payload for unmapped
actions. -/
def decisionToCommand (decision : Decision) : List (String × PyVal) :=
  let commandMap : List (String × List (String × PyVal)) :=
    [ ("turn_on", [("on", PyVal.bool true)]),
      ("turn_off", [("on", PyVal.bool false)]),
      ("set_brightness",
        [("bri", (lookupD decision.parameters "brightness").getD (PyVal.int 100))]),
      ("set_color",
        [("hue", (lookupD decision.parameters "hue").getD (PyVal.int 0)),
         ("sat", (lookupD decision.parameters "saturation").getD (PyVal.int 100))]),
      ("query_status", [("query", PyVal.str "status")]) ]
  (lookupD commandMap decision.action).getD []

end AIService

namespace ContextManager

/-- ContextSource (context_manager.py, dataclass ContextSource). -/
structure ContextSource where
  name : String
  priority : Int
  cache_ttl : Nat
  enabled : Bool := true

/-- Source list of the context manager (context_manager.py constructor),
already in ascending priority order as written. -/
def sources : List ContextSource :=
  [ { name := "user_profile", priority := 1, cache_ttl := 3600 },
    { name := "device_states", priority := 2, cache_ttl := 30 },
    { name := "environment", priority := 3, cache_ttl := 300 },
    { name := "weather", priority := 4, cache_ttl := 1800 },
    { name := "time", priority := 5, cache_ttl := 60 },
    { name := "history", priority := 6, cache_ttl := 900 } ]

/-- Helper scanning the source list for a TTL. -/
def getSourceTtlAux : List ContextSource → String → Nat
  | [], _ => 300
  | s :: rest, n => if s.name = n then s.cache_ttl else getSourceTtlAux rest n

/-- TTL of a source (context_manager.py _get_source_ttl), default 300. -/
def getSourceTtl (sourceName : String) : Nat :=
  getSourceTtlAux sources sourceName

/-- Cache key (context_manager.py _get_cache_key).  The Python code reads
the current hour bucket from the wall clock via strftime; the bucket string
is an explicit argument here. -/
def getCacheKey (sourceName : String) (user : Option String) (hourBucket : String) : String :=
  "context:" ++ sourceName ++ ":" ++ user.getD "anonymous" ++ ":" ++ hourBucket

/-- Layered cache state: the in-process map plus the optional shared Redis
store (entry expiry on the Redis side is wall-clock driven and modelled by
the entry being absent). -/
structure CacheState where
  localCache : List (String × PyVal) := []
  redis : Option (List (String × PyVal)) := Option.none

/-- Cache read (context_manager.py _get_cached_data, lines 331-361): the
local map is consulted first and its hits are returned unconditionally; on
a local miss a Redis hit is copied into the local map. -/
def getCachedData (st : CacheState) (key : String) : Option PyVal × CacheState :=
  match lookupD st.localCache key with
  | some v => (some v, st)
  | Option.none =>
      match st.redis with
      | some store =>
          match lookupD store key with
          | some v => (some v, { st with localCache := setKey st.localCache key v })
          | Option.none => (Option.none, st)
      | Option.none => (Option.none, st)

/-- Cache write (context_manager.py _cache_data, lines 363-380).  The ttl
argument is only handed to Redis setex; the local map stores the entry with
no expiry information at all. -/
def cacheData (st : CacheState) (key : String) (data : PyVal) (ttl : Nat) : CacheState :=
  let _redisTtl := ttl
  { localCache := setKey st.localCache key data,
    redis := st.redis.map (fun store => setKey store key data) }

/-- Python value.get(key, default) on a dict value; the sources only store
dicts, and .get on a non-dict would raise in Python. -/
def pyGet (v : PyVal) (k : String) (dflt : PyVal) : PyVal :=
  match v with
  | PyVal.dict m => (lookupD m k).getD dflt
  | _ => dflt

/-- View of a PyVal as a dict, for Python dict.update arguments. -/
def asDict : PyVal → List (String × PyVal)
  | PyVal.dict m => m
  | _ => []

/-- View of a PyVal as a list. -/
def asList : PyVal → List PyVal
  | PyVal.list xs => xs
  | _ => []

/-- Per-source fetch and caching (context_manager.py _get_source_data).
The fetch argument is the outcome the underlying source produces on a cache
miss: some data when the fetch returns, none when it raises.  The result is
the data (none when the fetch raised), the new cache state, and whether a
fetch happened. -/
def getSourceData (st : CacheState) (sourceName : String) (user : Option String)
    (hourBucket : String) (fetch : Option PyVal) : Option PyVal × CacheState × Bool :=
  let key := getCacheKey sourceName user hourBucket
  match getCachedData st key with
  | (some v, st2) => (some v, st2, false)
  | (Option.none, st2) =>
      match fetch with
      | some data =>
          if data.truthy then
            (some data, cacheData st2 key data (getSourceTtl sourceName), true)
          else (some data, st2, true)
      | Option.none => (Option.none, st2, true)

/-- Merged source data (the fixed keys of the merged dict in
_merge_context_data; the three collection keys start empty, the scalar keys
are absent which Python get reads back as None, collapsed to PyVal.none). -/
structure Merged where
  device_states : List (String × PyVal) := []
  user_preferences : List (String × PyVal) := []
  recent_actions : List PyVal := []
  location : PyVal := PyVal.none
  weather : PyVal := PyVal.none
  time_of_day : PyVal := PyVal.none

/-- One merge step of _merge_context_data for a single named source. -/
def mergeStep (m : Merged) (entry : String × PyVal) : Merged :=
  if entry.1 = "user_profile" then
    { m with user_preferences :=
        dictUpdate m.user_preferences (asDict (pyGet entry.2 "preferences" (PyVal.dict []))) }
  else if entry.1 = "device_states" then
    { m with device_states := dictUpdate m.device_states (asDict entry.2) }
  else if entry.1 = "environment" then
    { m with location := pyGet entry.2 "location" PyVal.none }
  else if entry.1 = "weather" then
    { m with weather := entry.2 }
  else if entry.1 = "time" then
    { m with time_of_day := pyGet entry.2 "time_of_day" PyVal.none }
  else if entry.1 = "history" then
    { m with recent_actions := asList (pyGet entry.2 "recent_actions" (PyVal.list [])) }
  else m

/-- Merge of the gathered per-source data (context_manager.py
_merge_context_data, lines 297-329).  Note that the history branch copies
the recent_actions list as fetched, with no truncation of its own. -/
def mergeContextData (contextData : List (String × PyVal)) : Merged :=
  contextData.foldl mergeStep { }

/-- View of a merged scalar as the optional string the Context field keeps
(source data stores strings there; None stays None). -/
def pyToOptStr : PyVal → Option String
  | PyVal.str s => some s
  | _ => Option.none

/-- View of a merged weather value as the optional dict Context keeps. -/
def pyToOpt : PyVal → Option PyVal
  | PyVal.none => Option.none
  | v => some v

/-- Context aggregation (context_manager.py get_context, lines 59-100).
fetches gives, per source name, the outcome of that fetch on a cache miss
(none models the fetch raising, which the loop catches and skips); falsy
source data is likewise skipped.  Sources are visited in priority order,
which is the listed order. -/
def getContext (st : CacheState) (user : Option String) (hourBucket : String)
    (fetches : String → Option PyVal) : Context × CacheState :=
  let step := fun (acc : List (String × PyVal) × CacheState) (src : ContextSource) =>
    if !src.enabled then acc
    else
      match getSourceData acc.2 src.name user hourBucket (fetches src.name) with
      | (some data, st2, _) =>
          if data.truthy then (acc.1 ++ [(src.name, data)], st2) else (acc.1, st2)
      | (Option.none, st2, _) => (acc.1, st2)
  let gathered := sources.foldl step ([], st)
  let merged := mergeContextData gathered.1
  ({ user_id := user,
     location := pyToOptStr merged.location,
     time_of_day := pyToOptStr merged.time_of_day,
     weather := pyToOpt merged.weather,
     device_states := merged.device_states,
     user_preferences := merged.user_preferences,
     recent_actions := merged.recent_actions }, gathered.2)

/-- Update dict accepted by update_context, restricted to the keys the
method reads; a some value on a scalar field models the key being present. -/
structure ContextUpdates where
  device_states : List (String × PyVal) := []
  user_preferences : List (String × PyVal) := []
  recent_actions : List PyVal := []
  user_id : Option (Option String) := Option.none
  location : Option (Option String) := Option.none
  time_of_day : Option (Option String) := Option.none
  weather : Option (Option PyVal) := Option.none

/-- Context update (context_manager.py update_context, lines 431-464): a
new Context whose dict fields are merged shallowly and whose recent_actions
is the concatenation of the old list and the update list, with no cap. -/
def updateContext (context : Context) (updates : ContextUpdates) : Context :=
  { user_id := updates.user_id.getD context.user_id,
    location := updates.location.getD context.location,
    time_of_day := updates.time_of_day.getD context.time_of_day,
    weather := updates.weather.getD context.weather,
    device_states := dictUpdate context.device_states updates.device_states,
    user_preferences := dictUpdate context.user_preferences updates.user_preferences,
    recent_actions := context.recent_actions ++ updates.recent_actions }

/-- Last n elements of a list (Python slice with a negative start). -/
def takeLast {α : Type} (n : Nat) (xs : List α) : List α :=
  xs.drop (xs.length - n)

/-- History append (context_manager.py add_action_to_history, lines
466-490): on a cached history entry, append the action and keep only the
last 10 items; without a user or a cached entry, do nothing. -/
def addActionToHistory (st : CacheState) (user : Option String) (hourBucket : String)
    (action : PyVal) : CacheState :=
  match user with
  | Option.none => st
  | some _ =>
      let key := getCacheKey "history" user hourBucket
      match getCachedData st key with
      | (some cached, st2) =>
          if cached.truthy then
            match cached with
            | PyVal.dict m =>
                let actions :=
                  match lookupD m "recent_actions" with
                  | some (PyVal.list xs) => xs
                  | _ => []
                let newActions := takeLast 10 (actions ++ [action])
                cacheData st2 key (PyVal.dict (setKey m "recent_actions" (PyVal.list newActions))) 900
            | _ => st2
          else st2
      | (Option.none, st2) => st2

end ContextManager

namespace Protocols

/-- Connection states (protocols/base.py, enum ProtocolState). -/
inductive ProtocolState where
  | disconnected
  | connecting
  | connected
  | error
  | reconnecting
deriving DecidableEq, Repr

/-- Exceptions surfaced by the protocol layer. -/
inductive PyError where
  | runtimeError (msg : String)
  | valueError (msg : String)
  | httpError (msg : String)
deriving DecidableEq, Repr

/-- One observer notification of on_state_change: the new state and the
optional error argument (protocols/base.py ProtocolObserver). -/
abbrev StateEvent := ProtocolState × Option PyError

/-- State-change broadcast (protocols/base.py _notify_state_change): every
registered observer receives the same (state, error) notification, appended
to its log. -/
def notifyStateChange (observerLogs : List (List StateEvent)) (s : ProtocolState)
    (e : Option PyError) : List (List StateEvent) :=
  observerLogs.map (fun log => log ++ [(s, e)])

/-- Low-level MQTT connect (mqtt.py MQTTClient.connect, lines 74-92): the
aiomqtt enter is wrapped in a try/except that returns False on any
exception, so the boolean outcome is exactly broker reachability. -/
def mqttClientConnect (brokerReachable : Bool) : Bool :=
  brokerReachable

/-- Protocol-level MQTT connect (mqtt.py MQTTProtocol.connect, lines
192-217).  clientInitError models the only way the except branch can run:
an exception raised while constructing the MQTTClient (never by
MQTTClient.connect, which swallows its own errors).  Returns the boolean
result, the observer logs after the broadcasts, and the final protocol
state (self.state, written by each _notify_state_change). -/
def mqttProtocolConnect (brokerReachable : Bool) (clientInitError : Option PyError)
    (observerLogs : List (List StateEvent)) :
    Bool × List (List StateEvent) × ProtocolState :=
  let logs1 := notifyStateChange observerLogs ProtocolState.connecting Option.none
  match clientInitError with
  | some e =>
      (false, notifyStateChange logs1 ProtocolState.error (some e), ProtocolState.error)
  | Option.none =>
      if mqttClientConnect brokerReachable then
        (true, notifyStateChange logs1 ProtocolState.connected Option.none,
         ProtocolState.connected)
      else
        (false, notifyStateChange logs1 ProtocolState.error Option.none,
         ProtocolState.error)

/-- Connected MQTT client as seen by publish: its connected flag and
whether the underlying network publish succeeds. -/
structure MQTTClientState where
  connected : Bool
  publishOk : Bool

/-- Low-level MQTT publish (mqtt.py MQTTClient.publish): False when not
connected, False on any exception, True otherwise. -/
def mqttClientPublish (c : MQTTClientState) : Bool :=
  c.connected && c.publishOk

/-- MQTT send_command (mqtt.py MQTTProtocol.send_command, lines 282-312):
raises RuntimeError when no client exists, otherwise publishes to the
command topic and returns a result dict. -/
def mqttSendCommand (client : Option MQTTClientState) (deviceId command : String)
    (parameters : List (String × PyVal)) : Except PyError PyVal :=
  match client with
  | Option.none => Except.error (PyError.runtimeError "Client MQTT non connecté")
  | some c =>
      let payload := (lookupD parameters "payload").getD (PyVal.dict [])
      let qos := (lookupD parameters "qos").getD (PyVal.int 0)
      let retain := (lookupD parameters "retain").getD (PyVal.bool false)
      let success := mqttClientPublish c
      Except.ok (PyVal.dict
        [("success", PyVal.bool success), ("device_id", PyVal.str deviceId),
         ("topic", PyVal.str command), ("payload", payload), ("qos", qos),
         ("retain", retain)])

/-- HTTP response as read by send_command (http.py HTTPResponse). -/
structure HTTPResponseModel where
  status_code : Int
  headers : List (String × PyVal)
  data : String

/-- HTTP send_command (http.py HTTPProtocol.send_command, lines 144-187):
raises RuntimeError when no client exists, raises ValueError when the url
parameter is missing or falsy, re-raises request failures wrapped in a
RuntimeError, and otherwise returns a result dict.  requestOutcome models
what the underlying httpx request produces for the assembled request. -/
def httpSendCommand (clientConnected : Bool)
    (requestOutcome : Except PyError HTTPResponseModel) (deviceId command : String)
    (parameters : List (String × PyVal)) : Except PyError PyVal :=
  if !clientConnected then Except.error (PyError.runtimeError "Client HTTP non connecté")
  else
    let url := (lookupD parameters "url").getD (PyVal.str "")
    let _method := if command = "" then "GET" else command.toUpper
    if !url.truthy then
      Except.error (PyError.valueError "URL requise pour les commandes HTTP")
    else
      match requestOutcome with
      | Except.error _ =>
          Except.error (PyError.runtimeError "Erreur lors de la commande HTTP")
      | Except.ok resp =>
          Except.ok (PyVal.dict
            [("status_code", PyVal.int resp.status_code),
             ("headers", PyVal.dict resp.headers), ("data", PyVal.str resp.data),
             ("device_id", PyVal.str deviceId), ("command", PyVal.str command)])

/-- Connected WebSocket client as seen by send_command: connection flag,
whether the frame send succeeds, and the outcome of one receive. -/
structure WSClientState where
  connected : Bool
  sendOk : Bool
  received : Option String

/-- Low-level WebSocket send (websocket.py WebSocketClient.send): False
when no connection, False on any exception. -/
def wsClientSend (c : WSClientState) : Bool :=
  c.connected && c.sendOk

/-- Low-level WebSocket receive (websocket.py WebSocketClient.receive):
None when no connection or on error. -/
def wsClientReceive (c : WSClientState) : Option String :=
  if c.connected then c.received else Option.none

/-- WebSocket send_command (websocket.py WebSocketProtocol.send_command,
lines 122-170): raises RuntimeError when no client exists, otherwise sends
the JSON envelope and returns a result dict whose success flag reflects the
send outcome (with an optional single response read). -/
def wsSendCommand (client : Option WSClientState) (deviceId command : String)
    (parameters : List (String × PyVal)) : Except PyError PyVal :=
  match client with
  | Option.none => Except.error (PyError.runtimeError "Client WebSocket non connecté")
  | some c =>
      if wsClientSend c then
        let waitForResponse := (lookupD parameters "wait_for_response").getD (PyVal.bool false)
        if waitForResponse.truthy then
          Except.ok (PyVal.dict
            [("success", PyVal.bool true), ("device_id", PyVal.str deviceId),
             ("command", PyVal.str command),
             ("response", ((wsClientReceive c).map PyVal.str).getD PyVal.none)])
        else
          Except.ok (PyVal.dict
            [("success", PyVal.bool true), ("device_id", PyVal.str deviceId),
             ("command", PyVal.str command)])
      else
        Except.ok (PyVal.dict
          [("success", PyVal.bool false), ("device_id", PyVal.str deviceId),
           ("command", PyVal.str command),
           ("error", PyVal.str "Echec envoi du message WebSocket")])

end Protocols

namespace IntentParsing

/-- Regular expressions over characters, enough for the fixed pattern set of
intent_parser.py (alternations of literals, character classes, gaps). -/
inductive RE where
  | nul
  | eps
  | cls (p : Char → Bool)
  | cat (a b : RE)
  | alt (a b : RE)
  | star (r : RE)

/-- Whether the regex accepts the empty word. -/
def RE.nullable : RE → Bool
  | .nul => false
  | .eps => true
  | .cls _ => false
  | .cat a b => a.nullable && b.nullable
  | .alt a b => a.nullable || b.nullable
  | .star _ => true

/-- Smart concatenation keeping derivative terms small. -/
def mkCat : RE → RE → RE
  | RE.nul, _ => RE.nul
  | RE.eps, b => b
  | _, RE.nul => RE.nul
  | a, RE.eps => a
  | a, b => RE.cat a b

/-- Smart alternation keeping derivative terms small. -/
def mkAlt : RE → RE → RE
  | RE.nul, b => b
  | a, RE.nul => a
  | a, b => RE.alt a b

/-- Brzozowski derivative. -/
def RE.deriv : RE → Char → RE
  | .nul, _ => .nul
  | .eps, _ => .nul
  | .cls p, c => if p c then .eps else .nul
  | .cat a b, c =>
      if a.nullable then mkAlt (mkCat (a.deriv c) b) (b.deriv c) else mkCat (a.deriv c) b
  | .alt a b, c => mkAlt (a.deriv c) (b.deriv c)
  | .star r, c => mkCat (r.deriv c) (.star r)

/-- Whether the regex matches some prefix of the word. -/
def matchPre : RE → List Char → Bool
  | r, [] => r.nullable
  | r, c :: s => r.nullable || matchPre (r.deriv c) s

/-- Whether the regex matches the whole word. -/
def matchFull : RE → List Char → Bool
  | r, [] => r.nullable
  | r, c :: s => matchFull (r.deriv c) s

/-- Python re.search: the regex matches somewhere inside the word. -/
def reSearch (r : RE) : List Char → Bool
  | [] => r.nullable
  | c :: rest => matchPre r (c :: rest) || reSearch r rest

/-- Search for an occurrence that ends exactly at the end of the word, for
patterns closed by an end anchor. -/
def reSearchEnd (r : RE) : List Char → Bool
  | [] => r.nullable
  | c :: rest => matchFull r (c :: rest) || reSearchEnd r rest

/-- Python regex whitespace class on the texts at hand. -/
def isSpaceCh (c : Char) : Bool :=
  c == ' ' || c == '\t' || c == '\n' || c == '\r' || c == '\x0b' || c == '\x0c'

/-- Literal word regex. -/
def lit (s : String) : RE :=
  s.data.foldr (fun c acc => mkCat (RE.cls (fun x => x == c)) acc) RE.eps

/-- Alternation of literal words, tried in listed order. -/
def altsRE (ss : List String) : RE :=
  ss.foldr (fun s acc => mkAlt (lit s) acc) RE.nul

/-- Whitespace character regex. -/
def wsRE : RE := RE.cls isSpaceCh

/-- Dot regex (any character except a newline). -/
def anyRE : RE := RE.cls (fun c => c != '\n')

/-- One-or-more repetition. -/
def rePlus (r : RE) : RE := RE.cat r (RE.star r)

/-- Existence of a match for a source pattern of shape
head-alternation, one or more spaces, a lazy nonempty gap, then a space or
the end of the text.  The two disjuncts split the trailing alternation of
the source pattern: a match closed by a space anywhere, or a match running
to the very end. -/
def searchGapEnd (a : RE) (t : List Char) : Bool :=
  reSearch (mkCat a (mkCat (rePlus wsRE) (mkCat (rePlus anyRE) wsRE))) t ||
  reSearchEnd (mkCat a (mkCat (rePlus wsRE) (rePlus anyRE))) t

/-- Existence of a match for the question pattern of shape
head-alternation, spaces, a lazy nonempty gap, then a space or a question
mark. -/
def searchGapQm (a : RE) (t : List Char) : Bool :=
  reSearch (mkCat a (mkCat (rePlus wsRE)
    (mkCat (rePlus anyRE) (mkAlt wsRE (RE.cls (fun c => c == '?')))))) t

/-- Intent-type patterns (intent_parser.py, self.patterns): the number of
the listed patterns of the given type that match the text; the dict has no
entries for routine and diagnostic. -/
def patternMatchCount (ty : IntentType) (t : List Char) : Nat :=
  match ty with
  | IntentType.control =>
      ([ searchGapEnd (altsRE ["allume","éteins","active","désactive","mets","change","règle","ajuste"]) t,
         searchGapEnd (altsRE ["lumière","lampe","éclairage","interrupteur"]) t,
         searchGapEnd (altsRE ["augmente","diminue","monte","descends"]) t ]).count true
  | IntentType.query =>
      ([ searchGapEnd (altsRE ["combien","quelle","quel","quelles","quels","état","statut","valeur"]) t,
         searchGapEnd (altsRE ["température","humidité","luminosité","pression"]) t,
         searchGapQm (altsRE ["est-ce que","est ce que","est-ce","est ce"]) t ]).count true
  | IntentType.scene =>
      ([ searchGapEnd (altsRE ["scène","mode","ambiance","atmosphère"]) t,
         searchGapEnd (altsRE ["cinéma","lecture","dîner","romantique","travail","relax"]) t,
         searchGapEnd (altsRE ["mets","active","lance"]) t ]).count true
  | IntentType.automation =>
      ([ searchGapEnd (altsRE ["quand","si","lorsque","dès que"]) t,
         searchGapEnd (altsRE ["automatise","programme","planifie"]) t,
         searchGapEnd (altsRE ["routine","automatisation","scénario"]) t ]).count true
  | IntentType.routine => 0
  | IntentType.diagnostic => 0

/-- Prefix test on character lists. -/
def isPreL : List Char → List Char → Bool
  | [], _ => true
  | _ :: _, [] => false
  | a :: as, b :: bs => a == b && isPreL as bs

/-- Substring containment (Python in on strings). -/
def containsL (needle : List Char) : List Char → Bool
  | [] => needle.isEmpty
  | c :: rest => isPreL needle (c :: rest) || containsL needle rest

/-- Keyword lists of _detect_intent_type (intent_parser.py keyword_mapping). -/
def keywordList : IntentType → List String
  | IntentType.control => ["allume","éteins","active","désactive","mets","change"]
  | IntentType.query => ["combien","quelle","quel","état","statut","valeur"]
  | IntentType.scene => ["scène","mode","ambiance","atmosphère","cinéma"]
  | IntentType.automation => ["quand","si","automatise","programme","routine"]
  | IntentType.routine => ["routine","habitude","quotidien","matin","soir"]
  | IntentType.diagnostic => ["problème","erreur","ne marche pas","dysfonctionne"]

/-- Number of keywords of the type contained in the text. -/
def keywordMatchCount (ty : IntentType) (t : List Char) : Nat :=
  (keywordList ty).countP (fun k => containsL k.data t)

/-- Accumulated raw score of one intent type: 0.3 per matching pattern plus
0.2 per contained keyword (intent_parser.py _detect_intent_type, lines
101-147). -/
def rawScore (t : List Char) (ty : IntentType) : ℚ :=
  (3/10) * (patternMatchCount ty t : ℚ) + (2/10) * (keywordMatchCount ty t : ℚ)

/-- Iteration order of the score dict: the IntentType enum declaration
order, which is the dict insertion order in Python. -/
def typeOrder : List IntentType :=
  [IntentType.control, IntentType.query, IntentType.automation,
   IntentType.scene, IntentType.routine, IntentType.diagnostic]

/-- Total raw score over all types. -/
def totalScore (t : List Char) : ℚ :=
  (typeOrder.map (rawScore t)).sum

/-- Normalized score: raw divided by the total when the total is positive,
raw unchanged otherwise. -/
def normScore (t : List Char) (ty : IntentType) : ℚ :=
  if totalScore t > 0 then rawScore t ty / totalScore t else rawScore t ty

/-- Python max over (type, score) pairs: keeps the first pair, replacing it
only on a strictly larger score. -/
def pyMaxPair (best : IntentType × ℚ) : List (IntentType × ℚ) → IntentType × ℚ
  | [] => best
  | p :: ps => pyMaxPair (if p.2 > best.2 then p else best) ps

/-- Intent-type detection (intent_parser.py _detect_intent_type): the
best-scoring type after normalization, with the explicit low-confidence
fallback to CONTROL at 0.1. -/
def detectIntentType (t : List Char) : IntentType × ℚ :=
  let scored := typeOrder.map (fun ty => (ty, normScore t ty))
  let best :=
    match scored with
    | [] => (IntentType.control, 0)
    | p :: ps => pyMaxPair p ps
  if best.2 < 1/10 then (IntentType.control, 1/10) else best

/-- First alternative of the list that is a prefix of the word (Python
alternation order). -/
def firstPre (alternatives : List (List Char)) (s : List Char) : Option (List Char) :=
  match alternatives with
  | [] => Option.none
  | a :: rest => if isPreL a s then some a else firstPre rest s

/-- Fuelled scan of re.findall for an alternation of literal words:
leftmost matches, non-overlapping, resuming after each match.  The fuel is
an upper bound on the scan steps; with fuel above the text length the scan
is exact. -/
def findAllAltsF (alternatives : List (List Char)) : Nat → List Char → List (List Char)
  | 0, _ => []
  | _ + 1, [] => []
  | fuel + 1, c :: rest =>
      match firstPre alternatives (c :: rest) with
      | some a => a :: findAllAltsF alternatives fuel (List.drop a.length (c :: rest))
      | Option.none => findAllAltsF alternatives fuel rest

/-- re.findall for an alternation of literal words. -/
def findAllAlts (alternatives : List String) (t : List Char) : List (List Char) :=
  findAllAltsF (alternatives.map String.data) (t.length + 1) t

/-- Longest prefix satisfying the predicate, with the remainder. -/
def spanWhile (p : Char → Bool) : List Char → List Char × List Char
  | [] => ([], [])
  | c :: rest =>
      if p c then
        let r := spanWhile p rest
        (c :: r.1, r.2)
      else ([], c :: rest)

/-- Unit alternatives of the value and units patterns. -/
def unitStrings : List String := ["pourcent","%","degrés","°C","°F","lux","hPa"]

/-- Fuelled scan for the first value pattern digits-spaces-unit, capturing
the digit group as the source does (first non-empty captured group).  The
greedy digit and space runs are exact for this pattern because no unit
alternative starts with a digit or a space. -/
def scanNumUnitF : Nat → List Char → List (List Char)
  | 0, _ => []
  | _ + 1, [] => []
  | fuel + 1, c :: rest =>
      if c.isDigit then
        let ds := (spanWhile Char.isDigit (c :: rest)).1
        let r1 := (spanWhile Char.isDigit (c :: rest)).2
        let sp := (spanWhile isSpaceCh r1).1
        let r2 := (spanWhile isSpaceCh r1).2
        match firstPre (unitStrings.map String.data) r2 with
        | some u =>
            ds :: scanNumUnitF fuel (List.drop (ds.length + sp.length + u.length) (c :: rest))
        | Option.none => scanNumUnitF fuel rest
      else scanNumUnitF fuel rest

/-- Scan for the digits-unit value pattern. -/
def scanNumUnit (t : List Char) : List (List Char) :=
  scanNumUnitF (t.length + 1) t

/-- Components of a sequential pattern: a literal, a greedy nonempty or
possibly-empty class run, or an alternation of literals. -/
inductive Tok where
  | lits (s : String)
  | many1 (p : Char → Bool)
  | many0 (p : Char → Bool)
  | anyOf (xs : List String)

/-- Greedy sequential match of a token list at the head of the word,
returning the matched length.  Greediness is exact for the patterns at hand
since no later component can absorb what an earlier greedy run took. -/
def matchToks : List Tok → List Char → Option Nat
  | [], _ => some 0
  | Tok.lits l :: ts, s =>
      if isPreL l.data s then (matchToks ts (s.drop l.data.length)).map (· + l.data.length)
      else Option.none
  | Tok.many1 p :: ts, s =>
      let pre := (spanWhile p s).1
      if pre.isEmpty then Option.none
      else (matchToks ts (s.drop pre.length)).map (· + pre.length)
  | Tok.many0 p :: ts, s =>
      let pre := (spanWhile p s).1
      (matchToks ts (s.drop pre.length)).map (· + pre.length)
  | Tok.anyOf xs :: ts, s =>
      match firstPre (xs.map String.data) s with
      | some a => (matchToks ts (s.drop a.length)).map (· + a.length)
      | Option.none => Option.none

/-- Fuelled findall for a sequential pattern, capturing the whole match. -/
def scanToksF (toks : List Tok) : Nat → List Char → List (List Char)
  | 0, _ => []
  | _ + 1, [] => []
  | fuel + 1, c :: rest =>
      match matchToks toks (c :: rest) with
      | some n => (c :: rest).take n :: scanToksF toks fuel ((c :: rest).drop (max n 1))
      | Option.none => scanToksF toks fuel rest

/-- findall for a sequential pattern. -/
def scanToks (toks : List Tok) (t : List Char) : List (List Char) :=
  scanToksF toks (t.length + 1) t

/-- The delay pattern of the time category. -/
def dansToks : List Tok :=
  [Tok.lits "dans", Tok.many1 isSpaceCh, Tok.many1 Char.isDigit,
   Tok.many1 isSpaceCh, Tok.anyOf ["minutes","heures","jours"]]

/-- The clock pattern of the time category. -/
def heureToks : List Tok :=
  [Tok.lits "à", Tok.many1 isSpaceCh, Tok.many1 Char.isDigit,
   Tok.many0 isSpaceCh, Tok.lits "h", Tok.many0 isSpaceCh, Tok.many0 Char.isDigit]

/-- Python word characters over the vocabulary in use (letters, digits,
underscore, and the accented letters occurring in the French texts). -/
def isWordChar (c : Char) : Bool :=
  c.isAlpha || c.isDigit || c == '_' ||
  (['é','è','ê','à','â','ç','ô','î','ï','û','ù','ü'] : List Char).contains c

/-- Fuelled scan for free-standing integers, the word-bounded digit runs of
the numeric extraction.  The boolean tracks whether the previous character
was a word character. -/
def scanNumericF : Nat → Bool → List Char → List (List Char)
  | 0, _, _ => []
  | _ + 1, _, [] => []
  | fuel + 1, prevWord, c :: rest =>
      if c.isDigit && !prevWord then
        let ds := (spanWhile Char.isDigit (c :: rest)).1
        let after := (spanWhile Char.isDigit (c :: rest)).2
        let boundaryOk :=
          match after with
          | [] => true
          | c2 :: _ => !isWordChar c2
        if boundaryOk then ds :: scanNumericF fuel true after
        else scanNumericF fuel (isWordChar c) rest
      else scanNumericF fuel (isWordChar c) rest

/-- Word-bounded digit runs of the text. -/
def scanNumeric (t : List Char) : List (List Char) :=
  scanNumericF (t.length + 1) false t

/-- Integer value of a digit run (Python int). -/
def digitsToInt (ds : List Char) : Int :=
  Int.ofNat (ds.foldl (fun n c => 10 * n + (c.toNat - 48)) 0)

/-- Order-preserving removal of values already seen. -/
def dedupAux (seen : List String) : List String → List String
  | [] => []
  | x :: xs => if seen.contains x then dedupAux seen xs else x :: dedupAux (x :: seen) xs

/-- Cleaning loop of _extract_entities for one category: keep non-empty
values, first occurrence only, in match order. -/
def collectVals (raw : List (List Char)) : List String :=
  dedupAux [] ((raw.map (fun l => String.mk l)).filter (fun s => s != ""))

/-- First alternation of the action category. -/
def actionAlts1 : List String := ["allume","éteins","active","désactive","mets","change"]

/-- Second alternation of the action category. -/
def actionAlts2 : List String := ["augmente","diminue","monte","descends","règle","ajuste"]

/-- Device category values. -/
def deviceVals (t : List Char) : List String :=
  collectVals (findAllAlts ["lumière","lampe","éclairage","interrupteur","prise","capteur","thermostat"] t ++
    findAllAlts ["salon","cuisine","chambre","salle de bain","bureau","couloir","jardin"] t)

/-- Action category values. -/
def actionVals (t : List Char) : List String :=
  collectVals (findAllAlts actionAlts1 t ++ findAllAlts actionAlts2 t)

/-- Value category values. -/
def valueVals (t : List Char) : List String :=
  collectVals (scanNumUnit t ++
    findAllAlts ["chaud","froid","clair","sombre","fort","faible","haut","bas"] t)

/-- Time category values. -/
def timeVals (t : List Char) : List String :=
  collectVals (findAllAlts ["maintenant","tout de suite","immédiatement","plus tard"] t ++
    scanToks dansToks t ++ scanToks heureToks t)

/-- Numeric entity values (free-standing integers, no dedup in the source). -/
def numericVals (t : List Char) : List Int :=
  (scanNumeric t).map digitsToInt

/-- Units entity values (no dedup in the source). -/
def unitVals (t : List Char) : List String :=
  (findAllAlts unitStrings t).map String.mk

/-- A category entry is added only when its value list is non-empty. -/
def optEntry (k : String) (vs : List EntVal) : List (String × List EntVal) :=
  if vs.isEmpty then [] else [(k, vs)]

/-- Entity extraction (intent_parser.py _extract_entities, lines 149-191),
categories in dict insertion order, then numeric and units. -/
def extractEntities (t : List Char) : List (String × List EntVal) :=
  optEntry "device" ((deviceVals t).map EntVal.str) ++
  optEntry "action" ((actionVals t).map EntVal.str) ++
  optEntry "value" ((valueVals t).map EntVal.str) ++
  optEntry "time" ((timeVals t).map EntVal.str) ++
  optEntry "numeric" ((numericVals t).map EntVal.int) ++
  optEntry "units" ((unitVals t).map EntVal.str)

/-- Python str.lower on the characters of the texts at hand. -/
def pyLowerChar (c : Char) : Char :=
  match c with
  | 'É' => 'é'
  | 'È' => 'è'
  | 'Ê' => 'ê'
  | 'À' => 'à'
  | 'Â' => 'â'
  | 'Ç' => 'ç'
  | 'Ô' => 'ô'
  | 'Î' => 'î'
  | 'Ï' => 'ï'
  | 'Û' => 'û'
  | 'Ù' => 'ù'
  | 'Ü' => 'ü'
  | _ => c.toLower

/-- Python str.strip. -/
def stripL (t : List Char) : List Char :=
  ((t.dropWhile isSpaceCh).reverse.dropWhile isSpaceCh).reverse

/-- Normalization applied by parse before scoring and extraction. -/
def normalizeText (text : String) : List Char :=
  stripL (text.data.map pyLowerChar)

/-- Intent parsing (intent_parser.py parse, lines 70-99): lowercase and
strip, score the intent types, extract the entities; the Intent keeps the
original text. -/
def parse (text : String) : Intent :=
  let t := normalizeText text
  { type := (detectIntentType t).1,
    text := text,
    confidence := (detectIntentType t).2,
    entities := extractEntities t }

end IntentParsing

/-! Sample inputs used by the concrete theorems below. -/

/-- CONTROL intent whose only action entity is éteins, as produced for a
French switch-off request. -/
def eteinsIntent : Intent :=
  { type := IntentType.control, text := "éteins la lumière", confidence := 9/10,
    entities := [("action", [EntVal.str "éteins"])] }

/-- Minimal CONTROL intent for cache and delegate scenarios. -/
def basicIntent : Intent :=
  { type := IntentType.control, text := "allume la lumière", confidence := 1/2,
    entities := [("action", [EntVal.str "allume"])] }

/-- Remote-delegate response carrying an out-of-range confidence of 5. -/
def apiConf5 : DecisionEngine.ApiResponse :=
  { action := some "turn_on", target := some "living_room_light",
    confidence := some 5 }

/-- Context whose recent_actions already holds ten entries. -/
def ctxTen : Context :=
  { recent_actions :=
      [PyVal.int 0, PyVal.int 1, PyVal.int 2, PyVal.int 3, PyVal.int 4,
       PyVal.int 5, PyVal.int 6, PyVal.int 7, PyVal.int 8, PyVal.int 9] }

/-- Update adding one recent action. -/
def updOne : ContextManager.ContextUpdates :=
  { recent_actions := [PyVal.dict [("action", PyVal.str "turn_on")]] }

/-- Successful HTTP response sample. -/
def sampleResp : Protocols.HTTPResponseModel :=
  { status_code := 200, headers := [], data := "ok" }

/-- First intent of the cache-collision pair: twenty a characters then a
distinct tail and distinct entities. -/
def intentA : Intent :=
  { type := IntentType.control, text := "aaaaaaaaaaaaaaaaaaaa allume la lumière",
    confidence := 9/10, entities := [("action", [EntVal.str "allume"])] }

/-- Second intent of the pair: same first twenty characters, different tail
and different entities. -/
def intentB : Intent :=
  { type := IntentType.control, text := "aaaaaaaaaaaaaaaaaaaa éteins la lumière",
    confidence := 9/10, entities := [("action", [EntVal.str "éteins"])] }

/-- Shared context of the cache-collision pair. -/
def ctxUser : Context :=
  { user_id := some "u1", time_of_day := some "evening" }

/-- Cached history list of two actions. -/
def histActions : List PyVal := [PyVal.int 0, PyVal.int 1]

/-- Cached history entry holding those actions. -/
def histDict : List (String × PyVal) := [("recent_actions", PyVal.list histActions)]

/-- Cache state whose history key for user u1 in one hour bucket holds that
entry. -/
def histState : ContextManager.CacheState :=
  { localCache := [(ContextManager.getCacheKey "history" (some "u1") "2025021410",
                    PyVal.dict histDict)] }

/-! Helper lemmas. -/

/-- Writing a key and reading it back hits the written value. -/
theorem lookupD_setKey_self {α : Type} (l : List (String × α)) (k : String) (v : α) :
    lookupD (setKey l k v) k = some v := by
  induction l with
  | nil => simp [setKey, lookupD]
  | cons hd tl ih =>
      by_cases h : hd.1 = k
      · simp [setKey, h, lookupD]
      · cases hd with
        | mk k0 v0 =>
            simp only at h
            simp [setKey, h, lookupD, ih]

/-- Python max keeps its first argument when no later pair strictly beats
it. -/
theorem pyMaxPair_stays (best : IntentType × ℚ) (ps : List (IntentType × ℚ))
    (h : ∀ p ∈ ps, p.2 ≤ best.2) : IntentParsing.pyMaxPair best ps = best := by
  induction ps with
  | nil => rfl
  | cons p ps ih =>
      have hp : ¬ p.2 > best.2 := not_lt.mpr (h p (List.mem_cons_self p ps))
      simp only [IntentParsing.pyMaxPair, if_neg hp]
      exact ih (fun q hq => h q (List.mem_cons_of_mem p hq))

/-- Lookup walks past an entry whose key differs. -/
theorem lookupD_optEntry_skip (k1 k2 : String) (vs : List EntVal)
    (rest : List (String × List EntVal)) (h : k1 ≠ k2) :
    lookupD (IntentParsing.optEntry k1 vs ++ rest) k2 = lookupD rest k2 := by
  by_cases he : vs.isEmpty <;> simp [IntentParsing.optEntry, he, lookupD, h]

/-- Lookup finds a leading entry with the matching key. -/
theorem lookupD_optEntry_hit (k : String) (vs : List EntVal)
    (rest : List (String × List EntVal)) (h : ¬ vs.isEmpty) :
    lookupD (IntentParsing.optEntry k vs ++ rest) k = some vs := by
  simp [IntentParsing.optEntry, h, lookupD]

/-! Claim theorems. -/

/-- C1: the spec says _rule_matches enforces entity membership for rules
with entity requirements, so the built-in turn_on rule (action in allume,
active) must not match a CONTROL intent whose only action entity is éteins.
The code reads only the literal key entities of the condition dict, never
the dotted key entities.action the built-in rules use, so the turn_on rule
matches that intent (its condition carries no consulted entity requirement
at all), and the local decision for the éteins intent is turn_on. -/
theorem c1_dotted_entity_condition_ignored :
    (DecisionEngine.initializeRules[0]?.map
        (fun r => DecisionEngine.ruleMatches r eteinsIntent { })) = some true ∧
    (DecisionEngine.initializeRules[0]?.map
        (fun r => (lookupD r.condition "entities").isNone)) = some true ∧
    (DecisionEngine.makeLocalDecision eteinsIntent { } []).action = "turn_on" := by
  refine ⟨by decide, by decide, ?_⟩
  have hm : (DecisionEngine.initializeRules.map
      (fun r => DecisionEngine.ruleMatches r eteinsIntent { })) =
      [true, true, false, false, false, false, false] := by decide
  simp only [DecisionEngine.makeLocalDecision, DecisionEngine.evaluateRules,
    DecisionEngine.initializeRules] at *
  simp only [List.map_cons, List.map_nil, List.cons.injEq, List.filter] at hm ⊢
  obtain ⟨e1, e2, e3, e4, e5, e6, e7, -⟩ := hm
  simp only [e1, e2, e3, e4, e5, e6, e7, DecisionEngine.pyMaxRule, DecisionEngine.ruleKeyGt]
  norm_num

/-- C3: when the remote decision delegate fails on every call (api = none
models any transport failure, such as HTTP 500), make_decision raises no
exception and returns exactly the local rule decision for the same intent,
context and available actions, provided the decision cache has no entry for
the cache key (the failure is caught and the local fallback decision is
returned and cached). -/
theorem c3_delegate_failure_falls_back_to_local
    (cache : List (String × Decision)) (intent : Intent) (context : Context)
    (availableActions : List PyVal)
    (h : lookupD cache (DecisionEngine.decisionCacheKey intent context) = Option.none) :
    (DecisionEngine.makeDecision cache Option.none intent context availableActions).1 =
      DecisionEngine.makeLocalDecision intent context availableActions := by
  simp [DecisionEngine.makeDecision, h]

/-- Witness for C3 at a fresh engine: empty cache, éteins intent, empty
context. -/
theorem c3_witness :
    (DecisionEngine.makeDecision [] Option.none eteinsIntent { } []).1 =
      DecisionEngine.makeLocalDecision eteinsIntent { } [] :=
  c3_delegate_failure_falls_back_to_local [] eteinsIntent { } [] rfl

/-- C4 counterexample: the claim quantifies over every Decision produced by
make_decision, but on the remote-delegate success path the confidence is
taken verbatim from the response with no clamping: a response carrying
confidence 5 yields a Decision with confidence 5, outside the closed
interval from 0.1 to 1.0. -/
theorem c4_counterexample_remote_confidence_unclamped :
    (DecisionEngine.makeDecision [] (some apiConf5) basicIntent { } []).1.confidence = 5 ∧
    ¬ (1/10 ≤ (DecisionEngine.makeDecision [] (some apiConf5) basicIntent { } []).1.confidence ∧
       (DecisionEngine.makeDecision [] (some apiConf5) basicIntent { } []).1.confidence ≤ 1) := by
  have h : (DecisionEngine.makeDecision [] (some apiConf5) basicIntent { } []).1.confidence = 5 := by
    simp [DecisionEngine.makeDecision, lookupD, DecisionEngine.decisionFromApi, apiConf5]
  refine ⟨h, ?_⟩
  rw [h]
  norm_num

/-- C4 amended: every Decision produced by the local rule path
(_make_local_decision) has its confidence in the closed interval from 0.1
to 1.0, for every intent, context and available actions, hence for all
factor values including the extremes; the clamp max(0.1, min(1.0, x)) and
the fixed 0.1 of the no-match branch enforce it.  Decisions built from a
successful remote response are exempt, as the counterexample shows. -/
theorem c4_local_confidence_clamped (intent : Intent) (context : Context)
    (availableActions : List PyVal) :
    1/10 ≤ (DecisionEngine.makeLocalDecision intent context availableActions).confidence ∧
    (DecisionEngine.makeLocalDecision intent context availableActions).confidence ≤ 1 := by
  cases h : DecisionEngine.evaluateRules intent context with
  | nil =>
      simp only [DecisionEngine.makeLocalDecision, h]
      norm_num
  | cons r rs =>
      simp only [DecisionEngine.makeLocalDecision, h, DecisionEngine.calculateConfidence]
      constructor
      · exact le_max_left _ _
      · exact max_le (by norm_num) (min_le_left _ _)

/-- C8: the decision-to-command translation is exactly the fixed
action-to-payload table of _decision_to_command: turn_on to on true,
turn_off to on false, set_brightness to bri with default 100, set_color to
hue and sat with defaults 0 and 100, query_status to the status query, and
every other action to the empty payload. -/
theorem c8_decision_to_command_table (d : Decision) :
    AIService.decisionToCommand d =
      (if d.action = "turn_on" then [("on", PyVal.bool true)]
       else if d.action = "turn_off" then [("on", PyVal.bool false)]
       else if d.action = "set_brightness" then
         [("bri", (lookupD d.parameters "brightness").getD (PyVal.int 100))]
       else if d.action = "set_color" then
         [("hue", (lookupD d.parameters "hue").getD (PyVal.int 0)),
          ("sat", (lookupD d.parameters "saturation").getD (PyVal.int 100))]
       else if d.action = "query_status" then [("query", PyVal.str "status")]
       else []) := by
  simp only [AIService.decisionToCommand, lookupD]
  by_cases h1 : d.action = "turn_on"
  · simp [h1]
  · by_cases h2 : d.action = "turn_off"
    · simp [h1, h2]
    · by_cases h3 : d.action = "set_brightness"
      · simp [h1, h2, h3]
      · by_cases h4 : d.action = "set_color"
        · simp [h1, h2, h3, h4]
        · by_cases h5 : d.action = "query_status"
          · simp [h1, h2, h3, h4, h5]
          · have n1 : ¬ ("turn_on" = d.action) := fun h => h1 h.symm
            have n2 : ¬ ("turn_off" = d.action) := fun h => h2 h.symm
            have n3 : ¬ ("set_brightness" = d.action) := fun h => h3 h.symm
            have n4 : ¬ ("set_color" = d.action) := fun h => h4 h.symm
            have n5 : ¬ ("query_status" = d.action) := fun h => h5 h.symm
            simp [n1, n2, n3, n4, n5, h1, h2, h3, h4, h5]

/-- C9: two make_decision calls whose intents agree on type and on the
first 20 characters of their text, and whose contexts agree on user_id and
time_of_day, share the cache key, so the second call returns the decision
cached by the first, whatever its own delegate outcome, entities or text
tail. -/
theorem c9_cache_key_truncates_text_at_20
    (i1 i2 : Intent) (ca cb : Context) (a1 a2 : List PyVal)
    (api1 api2 : Option DecisionEngine.ApiResponse)
    (hty : i1.type = i2.type) (htx : i1.text.take 20 = i2.text.take 20)
    (hu : ca.user_id = cb.user_id) (ht : ca.time_of_day = cb.time_of_day) :
    (DecisionEngine.makeDecision (DecisionEngine.makeDecision [] api1 i1 ca a1).2
        api2 i2 cb a2).1 =
      (DecisionEngine.makeDecision [] api1 i1 ca a1).1 := by
  have hkey : DecisionEngine.decisionCacheKey i1 ca = DecisionEngine.decisionCacheKey i2 cb := by
    simp [DecisionEngine.decisionCacheKey, hty, htx, hu, ht]
  simp only [DecisionEngine.makeDecision, lookupD]
  simp [hkey]

/-- Witness for C9: the two sample intents share their first 20 characters
but differ in tail and entities; the second call returns the first cached
decision. -/
theorem c9_witness :
    (DecisionEngine.makeDecision
        (DecisionEngine.makeDecision [] Option.none intentA ctxUser []).2
        Option.none intentB ctxUser []).1 =
      (DecisionEngine.makeDecision [] Option.none intentA ctxUser []).1 :=
  c9_cache_key_truncates_text_at_20 intentA intentB ctxUser ctxUser [] []
    Option.none Option.none rfl (by decide) rfl rfl

/-- C10: once a source entry is stored through _cache_data, a later
_get_source_data with the same source, user and hour bucket answers from
the in-process cache and performs no fetch, for every declared TTL and
whatever the source would return: the local cache layer stores no expiry
information, so staleness within the hour bucket is unbounded by the TTL. -/
theorem c10_local_cache_ignores_ttl
    (st : ContextManager.CacheState) (sourceName : String) (user : Option String)
    (hourBucket : String) (d : PyVal) (ttl : Nat) (fetch : Option PyVal) :
    ContextManager.getSourceData
        (ContextManager.cacheData st (ContextManager.getCacheKey sourceName user hourBucket) d ttl)
        sourceName user hourBucket fetch =
      (some d,
       ContextManager.cacheData st (ContextManager.getCacheKey sourceName user hourBucket) d ttl,
       false) := by
  simp [ContextManager.getSourceData, ContextManager.getCachedData,
    ContextManager.cacheData, lookupD_setKey_self]

/-- A successful first-alternative lookup returns a listed alternative. -/
theorem firstPre_mem (alternatives : List (List Char)) (s a : List Char)
    (h : IntentParsing.firstPre alternatives s = some a) : a ∈ alternatives := by
  induction alternatives with
  | nil => simp [IntentParsing.firstPre] at h
  | cons hd tl ih =>
      by_cases hp : IntentParsing.isPreL hd s
      · simp only [IntentParsing.firstPre, hp, if_true, Option.some.injEq] at h
        exact h ▸ List.mem_cons_self hd tl
      · simp only [IntentParsing.firstPre, hp, if_false, Bool.false_eq_true] at h
        exact List.mem_cons_of_mem _ (ih h)

/-- A failed first-alternative lookup means no alternative is a prefix. -/
theorem firstPre_none (alternatives : List (List Char)) (s : List Char)
    (h : IntentParsing.firstPre alternatives s = Option.none) :
    ∀ a ∈ alternatives, IntentParsing.isPreL a s = false := by
  induction alternatives with
  | nil => intro a ha; simp at ha
  | cons hd tl ih =>
      by_cases hp : IntentParsing.isPreL hd s
      · simp [IntentParsing.firstPre, hp] at h
      · intro a ha
        rcases List.mem_cons.mp ha with rfl | ha2
        · simp only [Bool.not_eq_true] at hp
          exact hp
        · exact ih (by simpa [IntentParsing.firstPre, hp] using h) a ha2

/-- The findall scan returns at least one match when a non-empty listed
alternative occurs in the text and the fuel covers the text. -/
theorem findAllAltsF_ne_nil (alternatives : List (List Char)) (needle : List Char)
    (hmem : needle ∈ alternatives) (hne : needle ≠ []) :
    ∀ (fuel : Nat) (s : List Char), s.length < fuel →
      IntentParsing.containsL needle s = true →
      IntentParsing.findAllAltsF alternatives fuel s ≠ [] := by
  intro fuel
  induction fuel with
  | zero => intro s hlen hcon; exact absurd hlen (Nat.not_lt_zero _)
  | succ fuel ih =>
      intro s hlen hcon
      cases s with
      | nil =>
          simp [IntentParsing.containsL, List.isEmpty_iff] at hcon
          exact (hne hcon).elim
      | cons c rest =>
          cases hfp : IntentParsing.firstPre alternatives (c :: rest) with
          | some a => simp [IntentParsing.findAllAltsF, hfp]
          | none =>
              have hnp := firstPre_none alternatives (c :: rest) hfp needle hmem
              have hcon2 : IntentParsing.containsL needle rest = true := by
                simpa [IntentParsing.containsL, hnp] using hcon
              have hlen2 : rest.length < fuel := by
                simp only [List.length_cons] at hlen
                omega
              simp only [IntentParsing.findAllAltsF, hfp]
              exact ih rest hlen2 hcon2

/-- Every match the findall scan returns is one of the alternatives. -/
theorem findAllAltsF_subset (alternatives : List (List Char)) :
    ∀ (fuel : Nat) (s x : List Char),
      x ∈ IntentParsing.findAllAltsF alternatives fuel s → x ∈ alternatives := by
  intro fuel
  induction fuel with
  | zero => intro s x hx; simp [IntentParsing.findAllAltsF] at hx
  | succ fuel ih =>
      intro s x hx
      cases s with
      | nil => simp [IntentParsing.findAllAltsF] at hx
      | cons c rest =>
          cases hfp : IntentParsing.firstPre alternatives (c :: rest) with
          | some a =>
              simp only [IntentParsing.findAllAltsF, hfp, List.mem_cons] at hx
              rcases hx with rfl | hx2
              · exact firstPre_mem _ _ _ hfp
              · exact ih _ x hx2
          | none =>
              simp only [IntentParsing.findAllAltsF, hfp] at hx
              exact ih _ x hx

/-- A list of characters that is not empty makes a non-empty string. -/
theorem stringMk_ne_empty {l : List Char} (h : l ≠ []) : String.mk l ≠ "" :=
  fun he => h (by simpa using congrArg String.data he)

/-- The cleaning loop keeps a value when the raw match list is non-empty
and every raw match renders to a non-empty string. -/
theorem collectVals_ne_nil (raw : List (List Char)) (hne : raw ≠ [])
    (hall : ∀ l ∈ raw, String.mk l ≠ "") : IntentParsing.collectVals raw ≠ [] := by
  cases raw with
  | nil => exact absurd rfl hne
  | cons r0 rs =>
      have h0 : (String.mk r0 != "") = true :=
        bne_iff_ne.mpr (hall r0 (List.mem_cons_self _ _))
      simp [IntentParsing.collectVals, List.filter_cons, h0, IntentParsing.dedupAux]

/-- The action category is populated whenever one of its first-alternation
keywords occurs in the text. -/
theorem actionVals_ne_nil (t : List Char) (kw : String)
    (hk : kw ∈ IntentParsing.actionAlts1)
    (hcon : IntentParsing.containsL kw.data t = true) :
    IntentParsing.actionVals t ≠ [] := by
  have hmem : kw.data ∈ IntentParsing.actionAlts1.map String.data :=
    List.mem_map_of_mem _ hk
  have hdne : kw.data ≠ [] := by fin_cases hk <;> decide
  have hA1 : ∀ x ∈ IntentParsing.actionAlts1.map String.data, x ≠ [] := by decide
  have hA2 : ∀ x ∈ IntentParsing.actionAlts2.map String.data, x ≠ [] := by decide
  unfold IntentParsing.actionVals IntentParsing.findAllAlts
  apply collectVals_ne_nil
  · intro hco
    exact findAllAltsF_ne_nil _ _ hmem hdne _ t (Nat.lt_succ_self _) hcon
      (List.append_eq_nil.mp hco).1
  · intro l hl
    rcases List.mem_append.mp hl with hl1 | hl2
    · exact stringMk_ne_empty (hA1 _ (findAllAltsF_subset _ _ _ _ hl1))
    · exact stringMk_ne_empty (hA2 _ (findAllAltsF_subset _ _ _ _ hl2))

/-- The entity map of a parse answers the action category with its computed
values when they are non-empty. -/
theorem extractEntities_action (t : List Char) (h : IntentParsing.actionVals t ≠ []) :
    lookupD (IntentParsing.extractEntities t) "action" =
      some ((IntentParsing.actionVals t).map EntVal.str) := by
  have hne : ¬ ((IntentParsing.actionVals t).map EntVal.str).isEmpty := by
    simp [List.isEmpty_iff, h]
  unfold IntentParsing.extractEntities
  simp only [List.append_assoc]
  rw [lookupD_optEntry_skip _ _ _ _ (by decide)]
  exact lookupD_optEntry_hit _ _ _ hne

/-- Raw scores are sums of non-negative contributions. -/
theorem rawScore_nonneg (t : List Char) (ty : IntentType) :
    0 ≤ IntentParsing.rawScore t ty := by
  unfold IntentParsing.rawScore
  positivity

/-- A contained control keyword pushes the raw control score to at least
one keyword contribution. -/
theorem rawScore_control_keyword (t : List Char) (kw : String)
    (hk : kw ∈ IntentParsing.keywordList IntentType.control)
    (hcon : IntentParsing.containsL kw.data t = true) :
    1/5 ≤ IntentParsing.rawScore t IntentType.control := by
  have hpos : 0 < IntentParsing.keywordMatchCount IntentType.control t := by
    unfold IntentParsing.keywordMatchCount
    exact List.countP_pos_iff.mpr ⟨kw, hk, hcon⟩
  have h1 : (1 : ℚ) ≤ (IntentParsing.keywordMatchCount IntentType.control t : ℚ) := by
    exact_mod_cast hpos
  have h2 : (0 : ℚ) ≤ (IntentParsing.patternMatchCount IntentType.control t : ℚ) := by
    positivity
  unfold IntentParsing.rawScore
  linarith

/-- Raw-count dominance transfers to the rational raw scores. -/
theorem rawScore_le_of_counts (t : List Char) (ty : IntentType)
    (h : 3 * IntentParsing.patternMatchCount ty t + 2 * IntentParsing.keywordMatchCount ty t ≤
      3 * IntentParsing.patternMatchCount IntentType.control t +
        2 * IntentParsing.keywordMatchCount IntentType.control t) :
    IntentParsing.rawScore t ty ≤ IntentParsing.rawScore t IntentType.control := by
  have hq : ((3 * IntentParsing.patternMatchCount ty t +
      2 * IntentParsing.keywordMatchCount ty t : ℕ) : ℚ) ≤
      ((3 * IntentParsing.patternMatchCount IntentType.control t +
        2 * IntentParsing.keywordMatchCount IntentType.control t : ℕ) : ℚ) := by
    exact_mod_cast h
  push_cast at hq
  unfold IntentParsing.rawScore
  linarith

/-- When the control score is at least 0.2 and no type outscores control,
detection returns control with the normalized control score, which is at
least one sixth. -/
theorem detectIntentType_control (t : List Char)
    (h15 : 1/5 ≤ IntentParsing.rawScore t IntentType.control)
    (hdom : ∀ ty, IntentParsing.rawScore t ty ≤ IntentParsing.rawScore t IntentType.control) :
    IntentParsing.detectIntentType t =
      (IntentType.control,
       IntentParsing.rawScore t IntentType.control / IntentParsing.totalScore t) ∧
    1/6 ≤ IntentParsing.rawScore t IntentType.control / IntentParsing.totalScore t := by
  have hn0 := rawScore_nonneg t
  have htot_eq : IntentParsing.totalScore t =
      IntentParsing.rawScore t IntentType.control +
      (IntentParsing.rawScore t IntentType.query +
      (IntentParsing.rawScore t IntentType.automation +
      (IntentParsing.rawScore t IntentType.scene +
      (IntentParsing.rawScore t IntentType.routine +
      (IntentParsing.rawScore t IntentType.diagnostic + 0))))) := rfl
  have htpos : 0 < IntentParsing.totalScore t := by
    rw [htot_eq]
    have := hn0 IntentType.query
    have := hn0 IntentType.automation
    have := hn0 IntentType.scene
    have := hn0 IntentType.routine
    have := hn0 IntentType.diagnostic
    linarith
  have htle : IntentParsing.totalScore t ≤ 6 * IntentParsing.rawScore t IntentType.control := by
    rw [htot_eq]
    have := hdom IntentType.query
    have := hdom IntentType.automation
    have := hdom IntentType.scene
    have := hdom IntentType.routine
    have := hdom IntentType.diagnostic
    linarith
  have hconf : 1/6 ≤ IntentParsing.rawScore t IntentType.control / IntentParsing.totalScore t := by
    rw [le_div_iff₀ htpos]
    linarith
  have hnc : IntentParsing.normScore t IntentType.control =
      IntentParsing.rawScore t IntentType.control / IntentParsing.totalScore t := by
    unfold IntentParsing.normScore
    rw [if_pos htpos]
  have hdomn : ∀ ty, IntentParsing.normScore t ty ≤ IntentParsing.normScore t IntentType.control := by
    intro ty
    unfold IntentParsing.normScore
    rw [if_pos htpos, if_pos htpos]
    exact (div_le_div_iff_of_pos_right htpos).mpr (hdom ty)
  have hmax : IntentParsing.pyMaxPair
      (IntentType.control, IntentParsing.normScore t IntentType.control)
      [(IntentType.query, IntentParsing.normScore t IntentType.query),
       (IntentType.automation, IntentParsing.normScore t IntentType.automation),
       (IntentType.scene, IntentParsing.normScore t IntentType.scene),
       (IntentType.routine, IntentParsing.normScore t IntentType.routine),
       (IntentType.diagnostic, IntentParsing.normScore t IntentType.diagnostic)] =
      (IntentType.control, IntentParsing.normScore t IntentType.control) := by
    apply pyMaxPair_stays
    intro p hp
    simp only [List.mem_cons, List.not_mem_nil, or_false] at hp
    rcases hp with rfl | rfl | rfl | rfl | rfl <;> exact hdomn _
  have hnotlt : ¬ (IntentParsing.normScore t IntentType.control < 1/10) := by
    rw [hnc]
    exact not_lt.mpr (le_trans (by norm_num) hconf)
  constructor
  · unfold IntentParsing.detectIntentType
    simp only [IntentParsing.typeOrder, List.map_cons, List.map_nil]
    rw [hmax, if_neg hnotlt, hnc]
  · exact hconf

/-- C7 amended: for every input whose normalized text contains an
on/off-style control keyword and in which no intent type outscores CONTROL
(dominance stated on the raw pattern/keyword counts), parse returns type
CONTROL, confidence at least 0.1, and a non-empty action entity list.  The
keyword alone does not force the type: other types can accumulate a higher
score, as the counterexample shows, which is what the dominance hypothesis
excludes; the confidence and action-entity parts hold there too. -/
theorem c7_control_keyword_dominant (text kw : String)
    (hkw : kw ∈ ["allume", "éteins", "active", "désactive"])
    (hcon : IntentParsing.containsL kw.data (IntentParsing.normalizeText text) = true)
    (hdom : ∀ ty,
      3 * IntentParsing.patternMatchCount ty (IntentParsing.normalizeText text) +
        2 * IntentParsing.keywordMatchCount ty (IntentParsing.normalizeText text) ≤
      3 * IntentParsing.patternMatchCount IntentType.control (IntentParsing.normalizeText text) +
        2 * IntentParsing.keywordMatchCount IntentType.control (IntentParsing.normalizeText text)) :
    (IntentParsing.parse text).type = IntentType.control ∧
    1/10 ≤ (IntentParsing.parse text).confidence ∧
    lookupD (IntentParsing.parse text).entities "action" =
      some ((IntentParsing.actionVals (IntentParsing.normalizeText text)).map EntVal.str) ∧
    (IntentParsing.actionVals (IntentParsing.normalizeText text)).map EntVal.str ≠ [] := by
  have hkc : kw ∈ IntentParsing.keywordList IntentType.control := by
    fin_cases hkw <;> decide
  have hka : kw ∈ IntentParsing.actionAlts1 := by
    fin_cases hkw <;> decide
  have h15 := rawScore_control_keyword (IntentParsing.normalizeText text) kw hkc hcon
  have hdomQ : ∀ ty, IntentParsing.rawScore (IntentParsing.normalizeText text) ty ≤
      IntentParsing.rawScore (IntentParsing.normalizeText text) IntentType.control :=
    fun ty => rawScore_le_of_counts _ ty (hdom ty)
  obtain ⟨hdet, hconf⟩ := detectIntentType_control (IntentParsing.normalizeText text) h15 hdomQ
  have hav := actionVals_ne_nil (IntentParsing.normalizeText text) kw hka hcon
  refine ⟨?_, ?_, ?_, ?_⟩
  · simp [IntentParsing.parse, hdet]
  · simp only [IntentParsing.parse, hdet]
    linarith [hconf]
  · simp only [IntentParsing.parse]
    exact extractEntities_action _ hav
  · simpa using hav

/-- Witness for C7 amended at the text allume la lampe: CONTROL type,
confidence at least 0.1, and a populated action entity. -/
theorem c7_witness :
    (IntentParsing.parse "allume la lampe").type = IntentType.control ∧
    1/10 ≤ (IntentParsing.parse "allume la lampe").confidence ∧
    lookupD (IntentParsing.parse "allume la lampe").entities "action" =
      some ((IntentParsing.actionVals
        (IntentParsing.normalizeText "allume la lampe")).map EntVal.str) ∧
    (IntentParsing.actionVals
      (IntentParsing.normalizeText "allume la lampe")).map EntVal.str ≠ [] :=
  c7_control_keyword_dominant "allume la lampe" "allume" (by decide) (by decide) (by decide)

/-- C7 counterexample: the text allume mode ambiance contains the on-style
keyword allume, yet parse classifies it as SCENE, because the scene
patterns and keywords accumulate 0.7 against 0.5 for control; so a control
keyword alone does not force type CONTROL. -/
theorem c7_counterexample_scene_outscores_control :
    IntentParsing.containsL "allume".data
      (IntentParsing.normalizeText "allume mode ambiance") = true ∧
    (IntentParsing.parse "allume mode ambiance").type = IntentType.scene ∧
    IntentType.scene ≠ IntentType.control := by
  refine ⟨by decide, ?_, by decide⟩
  have hnorm : IntentParsing.normalizeText "allume mode ambiance" =
      "allume mode ambiance".data := by decide
  have h1 : IntentParsing.patternMatchCount IntentType.control
      "allume mode ambiance".data = 1 := by decide
  have h2 : IntentParsing.patternMatchCount IntentType.query
      "allume mode ambiance".data = 0 := by decide
  have h3 : IntentParsing.patternMatchCount IntentType.automation
      "allume mode ambiance".data = 0 := by decide
  have h4 : IntentParsing.patternMatchCount IntentType.scene
      "allume mode ambiance".data = 1 := by decide
  have h5 : IntentParsing.patternMatchCount IntentType.routine
      "allume mode ambiance".data = 0 := by decide
  have h6 : IntentParsing.patternMatchCount IntentType.diagnostic
      "allume mode ambiance".data = 0 := by decide
  have k1 : IntentParsing.keywordMatchCount IntentType.control
      "allume mode ambiance".data = 1 := by decide
  have k2 : IntentParsing.keywordMatchCount IntentType.query
      "allume mode ambiance".data = 0 := by decide
  have k3 : IntentParsing.keywordMatchCount IntentType.automation
      "allume mode ambiance".data = 0 := by decide
  have k4 : IntentParsing.keywordMatchCount IntentType.scene
      "allume mode ambiance".data = 2 := by decide
  have k5 : IntentParsing.keywordMatchCount IntentType.routine
      "allume mode ambiance".data = 0 := by decide
  have k6 : IntentParsing.keywordMatchCount IntentType.diagnostic
      "allume mode ambiance".data = 0 := by decide
  have hdet : IntentParsing.detectIntentType "allume mode ambiance".data =
      (IntentType.scene, 7/12) := by
    simp only [IntentParsing.detectIntentType, IntentParsing.typeOrder, List.map_cons,
      List.map_nil, IntentParsing.normScore, IntentParsing.totalScore, IntentParsing.rawScore,
      h1, h2, h3, h4, h5, h6, k1, k2, k3, k4, k5, k6, IntentParsing.pyMaxPair]
    norm_num
  simp [IntentParsing.parse, hnorm, hdet]

/-- C2 counterexample: update_context concatenates recent_actions with no
cap, so updating a context that already holds ten actions with one more
yields eleven, refuting the claimed invariant length at most 10. -/
theorem c2_counterexample_update_exceeds_cap :
    ((ContextManager.updateContext ctxTen updOne).recent_actions).length = 11 ∧
    ¬ ((ContextManager.updateContext ctxTen updOne).recent_actions).length ≤ 10 := by
  constructor <;> decide

/-- C2 amended: update_context is append-only and keeps the prior entries
as a prefix in order, but enforces no cap (the length is the sum of the
lengths); the cap lives only in add_action_to_history, which rewrites the
cached history entry to the last 10 of old-plus-new, a suffix of it in
original order that equals old-plus-new exactly while the old list is
shorter than 10 (so at the cap the oldest entry is dropped and the prior
list is no longer a prefix). -/
theorem c2_amended_history_semantics :
    (∀ (c : Context) (u : ContextManager.ContextUpdates),
       (ContextManager.updateContext c u).recent_actions =
         c.recent_actions ++ u.recent_actions) ∧
    (∀ (xs : List PyVal) (a : PyVal),
       (ContextManager.takeLast 10 (xs ++ [a])).length ≤ 10 ∧
       (ContextManager.takeLast 10 (xs ++ [a])) <:+ (xs ++ [a]) ∧
       (xs.length < 10 → ContextManager.takeLast 10 (xs ++ [a]) = xs ++ [a])) ∧
    (∀ (st : ContextManager.CacheState) (uid : String) (hb : String) (a : PyVal)
       (m : List (String × PyVal)) (xs : List PyVal),
       lookupD st.localCache (ContextManager.getCacheKey "history" (some uid) hb) =
         some (PyVal.dict m) →
       m ≠ [] →
       lookupD m "recent_actions" = some (PyVal.list xs) →
       lookupD (ContextManager.addActionToHistory st (some uid) hb a).localCache
           (ContextManager.getCacheKey "history" (some uid) hb) =
         some (PyVal.dict (setKey m "recent_actions"
           (PyVal.list (ContextManager.takeLast 10 (xs ++ [a])))))) := by
  refine ⟨fun c u => rfl, fun xs a => ?_, fun st uid hb a m xs h1 hm h3 => ?_⟩
  · refine ⟨?_, ?_, ?_⟩
    · simp [ContextManager.takeLast]
      omega
    · exact List.drop_suffix _ _
    · intro hlt
      have hz : (xs ++ [a]).length - 10 = 0 := by
        simp only [List.length_append, List.length_cons, List.length_nil]
        omega
      rw [ContextManager.takeLast, hz, List.drop_zero]
  · cases m with
    | nil => exact absurd rfl hm
    | cons hd tl =>
        simp only [ContextManager.addActionToHistory, ContextManager.getCachedData, h1,
          PyVal.truthy, List.isEmpty_cons, h3, ContextManager.cacheData, Bool.not_false,
          if_true]
        exact lookupD_setKey_self _ _ _

/-- Witness for C2 amended, third part: appending to a concrete cached
history of two actions stores the three actions back. -/
theorem c2_amended_witness :
    lookupD (ContextManager.addActionToHistory histState (some "u1") "2025021410"
        (PyVal.int 99)).localCache
        (ContextManager.getCacheKey "history" (some "u1") "2025021410") =
      some (PyVal.dict (setKey histDict "recent_actions"
        (PyVal.list (ContextManager.takeLast 10 (histActions ++ [PyVal.int 99]))))) :=
  c2_amended_history_semantics.2.2 histState "u1" "2025021410" (PyVal.int 99)
    histDict histActions rfl (List.cons_ne_nil _ _) rfl

/-- C5 counterexample: connecting to an unreachable broker does produce
exactly one ERROR notification per observer, but it carries no error: the
exception is swallowed inside MQTTClient.connect and the ERROR broadcast
passes the default None, refuting the claimed non-null error. -/
theorem c5_counterexample_error_notification_carries_none :
    (Protocols.mqttProtocolConnect false Option.none [[]]).1 = false ∧
    (Protocols.mqttProtocolConnect false Option.none [[]]).2.1 =
      [[(Protocols.ProtocolState.connecting, Option.none),
        (Protocols.ProtocolState.error, Option.none)]] ∧
    (((Protocols.mqttProtocolConnect false Option.none [[]]).2.1.headD []).filter
        (fun ev => decide (ev.1 = Protocols.ProtocolState.error))) =
      [(Protocols.ProtocolState.error, Option.none)] := by
  refine ⟨rfl, rfl, rfl⟩

/-- C5 amended: with an unreachable broker, connect returns false, the
state walks DISCONNECTED (initial), CONNECTING, ERROR, and every registered
observer receives exactly the two notifications (CONNECTING, None) then
(ERROR, None) — one ERROR notification each, carrying a null error. -/
theorem c5_amended_unreachable_broker (observerLogs : List (List Protocols.StateEvent)) :
    Protocols.mqttProtocolConnect false Option.none observerLogs =
      (false,
       observerLogs.map (fun log =>
         log ++ [(Protocols.ProtocolState.connecting, Option.none),
                 (Protocols.ProtocolState.error, Option.none)]),
       Protocols.ProtocolState.error) := by
  simp [Protocols.mqttProtocolConnect, Protocols.mqttClientConnect,
    Protocols.notifyStateChange, List.map_map, Function.comp]

/-- C6 counterexample: send_command does raise: MQTT and WebSocket raise
RuntimeError when no client is initialized, and HTTP raises ValueError when
the url parameter is missing even with a connected client, so callers do
not always receive a structured result. -/
theorem c6_counterexample_send_command_raises :
    Protocols.mqttSendCommand Option.none "lamp1" "homeassistant/light/lamp1/set" [] =
      Except.error (Protocols.PyError.runtimeError "Client MQTT non connecté") ∧
    Protocols.httpSendCommand true (Except.ok sampleResp) "lamp1" "get" [] =
      Except.error (Protocols.PyError.valueError "URL requise pour les commandes HTTP") ∧
    Protocols.wsSendCommand Option.none "lamp1" "turn_on" [] =
      Except.error (Protocols.PyError.runtimeError "Client WebSocket non connecté") := by
  refine ⟨rfl, rfl, rfl⟩

/-- C6 amended: send_command returns a structured result whenever the
protocol has an initialized client — unconditionally for MQTT and
WebSocket (publish or send failures become success false inside the result),
and for HTTP whenever the url parameter is present and non-empty and the
request itself does not raise; with no client all three transports raise,
and HTTP additionally raises on a missing url and wraps request failures,
as the counterexample shows. -/
theorem c6_amended_structured_results :
    (∀ (c : Protocols.MQTTClientState) (deviceId command : String)
       (parameters : List (String × PyVal)),
       exceptIsOk (Protocols.mqttSendCommand (some c) deviceId command parameters) = true) ∧
    (∀ (c : Protocols.WSClientState) (deviceId command : String)
       (parameters : List (String × PyVal)),
       exceptIsOk (Protocols.wsSendCommand (some c) deviceId command parameters) = true) ∧
    (∀ (resp : Protocols.HTTPResponseModel) (deviceId command url : String)
       (parameters : List (String × PyVal)),
       lookupD parameters "url" = some (PyVal.str url) → url ≠ "" →
       exceptIsOk (Protocols.httpSendCommand true (Except.ok resp) deviceId command
         parameters) = true) := by
  refine ⟨fun c d cmd p => rfl, fun c d cmd p => ?_, fun resp d cmd url p hurl hne => ?_⟩
  · simp only [Protocols.wsSendCommand]
    by_cases hs : Protocols.wsClientSend c
    · simp only [hs, if_true]
      by_cases hw : ((lookupD p "wait_for_response").getD (PyVal.bool false)).truthy <;>
        simp [hw, exceptIsOk]
    · simp [hs, exceptIsOk]
  · simp [Protocols.httpSendCommand, hurl, PyVal.truthy, bne_iff_ne, hne, exceptIsOk]

/-- Witness for C6 amended: concrete connected clients and a present url
yield structured results on all three transports. -/
theorem c6_amended_witness :
    exceptIsOk (Protocols.mqttSendCommand (some { connected := true, publishOk := true })
      "lamp1" "homeassistant/light/lamp1/set" []) = true ∧
    exceptIsOk (Protocols.wsSendCommand
      (some { connected := true, sendOk := true, received := some "ok" })
      "lamp1" "turn_on" []) = true ∧
    exceptIsOk (Protocols.httpSendCommand true (Except.ok sampleResp) "lamp1" "get"
      [("url", PyVal.str "http://device.local/api")]) = true :=
  ⟨c6_amended_structured_results.1 _ "lamp1" "homeassistant/light/lamp1/set" [],
   c6_amended_structured_results.2.1 _ "lamp1" "turn_on" [],
   c6_amended_structured_results.2.2 sampleResp "lamp1" "get" "http://device.local/api"
     [("url", PyVal.str "http://device.local/api")] rfl (by decide)⟩

end HA
